import Mathlib

/-!
Verification of the AstraDB adapter of VectorDBBench
(`vectordb_bench/backend/clients/astradb/astradb.py` and `config.py`)
against its natural-language specification.

The adapter's pure control flow is embedded shallowly: the Cassandra
driver (an external collaborator) is abstracted as an oracle giving the
backend's per-statement outcome, and the driver's concurrency helpers
(`execute_concurrent_with_args`, `execute_concurrent`) are modelled by
their documented input/output behaviour (results collected for every
statement, in input order; optional raise-on-first-error).
-/

namespace AstraDBSpec

/-- Backend error value (abstract payload carried by a failed request). -/
structure Err where
  msg : String
deriving DecidableEq, Repr

/-- Python-level exceptions the adapter itself can raise. -/
inductive PyErr where
  /-- `IndexError` from `embeddings[i]` / `metadata[i]` out of range. -/
  | indexError : PyErr
  /-- `StopIteration` from `next()` on an empty iterator. -/
  | stopIteration : PyErr
deriving DecidableEq, Repr

/-- One entry of the list returned by the driver's
`execute_concurrent_with_args`: the `ExecutionResult` named tuple,
restricted to what an insert produces (`success`, `result_or_exc`;
for an insert the success payload carries no rows we use). -/
inductive ExecResult where
  | ok : ExecResult
  | err (e : Err) : ExecResult
deriving DecidableEq, Repr

/-- `ExecutionResult.success` field. -/
def ExecResult.success : ExecResult → Bool
  | .ok => true
  | .err _ => false

/-- `ExecutionResult.result_or_exc` field, projected to the error (an
insert's success payload is not inspected by the adapter). -/
def ExecResult.result_or_exc : ExecResult → Option Err
  | .ok => none
  | .err e => some e

/-- The per-row outcome oracle for the prepared insert statement:
`none` means the backend accepted the row, `some e` that it failed
with error `e`. This stands for the external database. -/
def InsertBackend : Type := Int × List Float → Option Err

/-- The driver's `execute_concurrent_with_args(session, stmt, params,
concurrency=16, raise_on_first_error=False)`: every parameter tuple is
executed and awaited, and one `ExecutionResult` per parameter is
returned, in parameter order (no short-circuit on failure). -/
def execute_concurrent_with_args (backend : InsertBackend)
    (params : List (Int × List Float)) : List ExecResult :=
  params.map (fun p =>
    match backend p with
    | none => ExecResult.ok
    | some e => ExecResult.err e)

/-- `[(metadata[i], embeddings[i]) for i in range(len(metadata))]` —
the Python list comprehension, including its `IndexError` when
`embeddings` is shorter than `metadata`. -/
def buildParams (metadata : List Int) (embeddings : List (List Float)) :
    Except PyErr (List (Int × List Float)) :=
  (List.range metadata.length).mapM (fun i =>
    match metadata[i]?, embeddings[i]? with
    | some m, some e => Except.ok (m, e)
    | _, _ => Except.error PyErr.indexError)

/-- `AstraDB.insert_embeddings`: builds the parameter list, runs the
whole batch through `execute_concurrent_with_args` with
`raise_on_first_error=False`, and returns
`(len(successful_results), None)` when every row succeeded, otherwise
`(len(successful_results), first failed result's result_or_exc)`. -/
def insert_embeddings (backend : InsertBackend)
    (embeddings : List (List Float)) (metadata : List Int) :
    Except PyErr (Nat × Option Err) := do
  let params ← buildParams metadata embeddings
  let results := execute_concurrent_with_args backend params
  let successful_results := results.filter (fun r => r.success)
  if successful_results.length = results.length then
    return (successful_results.length, none)
  else
    let failed_results := results.filter (fun r => !r.success)
    match failed_results.head? with
    | some r => return (successful_results.length, r.result_or_exc)
    | none => throw PyErr.stopIteration

/-! ### Query executor (`AstraDB.search_embedding`) -/

/-- One row of the ANN `SELECT` result: the statement selects only the
`id` column. -/
structure Row where
  id : Int
deriving DecidableEq, Repr

/-- Result entry of `execute_concurrent` for the single search
statement: `success` flag plus the rows (`result[1]` in the source). -/
structure SelectResult where
  success : Bool
  rows : List Row
deriving DecidableEq, Repr

/-- Outcome oracle for the prepared ANN search statement at a given
query vector and limit: the external backend either fails with an
error or returns its ranked rows (closest-first, already truncated to
the statement's `LIMIT`). -/
def SearchBackend : Type := List Float → Nat → Except Err (List Row)

/-- The driver's `execute_concurrent(session, stmts, concurrency=16,
raise_on_first_error=True)` for the single search statement: a failure
raises the error to the caller; otherwise the collected results (one
successful entry for the statement) are returned. -/
def execute_concurrent (outcome : Except Err (List Row)) :
    Except Err (List SelectResult) :=
  match outcome with
  | .error e => .error e
  | .ok rows => .ok [⟨true, rows⟩]

set_option linter.unusedVariables false in
/-- `AstraDB.search_embedding`: runs the prepared select through
`execute_concurrent` with `raise_on_first_error=True`, keeps the
successful results, and flattens `[row.id for result in
successful_results for row in result[1]]`. The `filters` argument is
accepted and never used (filtering search not supported). -/
def search_embedding (backend : SearchBackend) (query : List Float)
    (k : Nat) (filters : Option (List (String × String))) :
    Except Err (List Int) := do
  let results ← execute_concurrent (backend query k)
  let successful_results := results.filter (fun r => r.success)
  return successful_results.flatMap (fun r => r.rows.map (fun row => row.id))

/-! ### Session manager (`AstraDB.init`, a `@contextmanager`) -/

/-- Observable events of one pass through the `init` context manager. -/
inductive Ev where
  | connect : Ev
  | setKeyspace : Ev
  | prepareInsertStmt : Ev
  | prepareSelectStmt : Ev
  | yieldBody : Ev
  | shutdown : Ev
deriving DecidableEq, Repr

/-- The `init` context manager as a trace generator. Each Boolean says
whether the corresponding step succeeds or raises: `connectOk` for
`cluster.connect()`, `ksOk` for `set_keyspace`, `pIOk`/`pSOk` for the
two `prepare` calls, `bodyOk` for the code run at the `yield`. The
returned flag is `true` when the whole scope completed without an
exception. `connect` sits outside the `try`, so a connect failure
produces no further events; once the session is acquired the `finally`
block appends `shutdown` on every path. -/
def initTrace (connectOk ksOk pIOk pSOk bodyOk : Bool) :
    List Ev × Bool :=
  if !connectOk then ([], false)
  else
    let body : List Ev × Bool :=
      if !ksOk then ([], false)
      else if !pIOk then ([Ev.setKeyspace], false)
      else if !pSOk then ([Ev.setKeyspace, Ev.prepareInsertStmt], false)
      else ([Ev.setKeyspace, Ev.prepareInsertStmt, Ev.prepareSelectStmt,
             Ev.yieldBody], bodyOk)
    (Ev.connect :: body.1 ++ [Ev.shutdown], body.2)

/-! ### Schema provisioner (`AstraDB.__init__`) -/

/-- The CQL statement templates, verbatim from the source module. -/
def CREATE_TABLE_TEMPLATE : String :=
  "\nCREATE TABLE IF NOT EXISTS %s (\n    id INT,\n    embedding VECTOR<FLOAT, %s>,\n    PRIMARY KEY (id)\n);\n"

def CREATE_INDEX_TEMPLATE : String :=
  "\nCREATE CUSTOM INDEX IF NOT EXISTS %s_index\nON %s(embedding) USING 'StorageAttachedIndex';\n"

def DROP_TABLE_TEMPLATE : String :=
  "\nDROP TABLE IF EXISTS %s;\n"

def DROP_INDEX_TEMPLATE : String :=
  "\nDROP INDEX IF EXISTS %s_index;\n"

def INSERT_PREPARED : String :=
  "\nINSERT INTO %s (id, embedding) VALUES (?, ?);\n"

def SELECT_PREPARED : String :=
  "\nSELECT id FROM %s ORDER BY embedding ANN OF ? LIMIT ?;\n"

/-- Python `%`-formatting restricted to `%s` placeholders: each `%s`
is replaced by the next argument, left to right. -/
def substPercentS : List Char → List String → List Char
  | '%' :: 's' :: rest, a :: args => a.data ++ substPercentS rest args
  | c :: rest, args => c :: substPercentS rest args
  | [], _ => []

/-- `template % args` as used by the source (`%` applied to a string
or tuple of strings / stringified values). -/
def pyFormat (template : String) (args : List String) : String :=
  ⟨substPercentS template.data args⟩

/-- Observable events of the constructor's administrative session. -/
inductive AdminEv where
  | adminConnect : AdminEv
  | adminSetKeyspace (ks : String) : AdminEv
  | exec (stmt : String) : AdminEv
  | adminShutdown : AdminEv
deriving DecidableEq, Repr

/-- The adapter state the constructor leaves behind: the stored
configuration fields. The constructor stores no session — the data
session (`self.session`) is only assigned inside `init`. -/
structure AstraDBState where
  keyspace : String
  table : String
  cloud_config : String
  session : Option Unit
deriving DecidableEq, Repr

/-- `AstraDB.__init__`: stores keyspace/table/cloud configuration,
opens an administrative session, binds the keyspace, optionally issues
the two drop statements (when `drop_old`), always issues the two
create statements, and shuts the administrative session down. Returns
the stored state and the admin-session event trace. -/
def astraCtor (dim : Nat) (keyspace collection_name : String)
    (cloud_config : String) (drop_old : Bool) :
    AstraDBState × List AdminEv :=
  let dropEvents :=
    if drop_old then
      [AdminEv.exec (pyFormat DROP_TABLE_TEMPLATE [collection_name]),
       AdminEv.exec (pyFormat DROP_INDEX_TEMPLATE [collection_name])]
    else []
  (⟨keyspace, collection_name, cloud_config, none⟩,
   AdminEv.adminConnect :: AdminEv.adminSetKeyspace keyspace ::
     dropEvents ++
     [AdminEv.exec (pyFormat CREATE_TABLE_TEMPLATE
        [collection_name, toString dim]),
      AdminEv.exec (pyFormat CREATE_INDEX_TEMPLATE
        [collection_name, collection_name]),
      AdminEv.adminShutdown])

/-- A statement carries `IF NOT EXISTS` / `IF EXISTS` semantics when
the phrase occurs verbatim in its text. -/
def HasPhrase (phrase stmt : String) : Prop :=
  ∃ pre post, stmt.data = pre ++ phrase.data ++ post

/-! ### Connection configuration (`config.py`) -/

/-- Model of pydantic's `SecretStr`: it wraps the secret value, which
is only obtainable through `get_secret_value`; its default
stringification (`__str__`/`__repr__`) renders a constant mask. -/
structure SecretStr where
  secret : String
deriving DecidableEq, Repr

def SecretStr.get_secret_value (s : SecretStr) : String := s.secret

/-- `str()` of a pydantic `SecretStr`: the constant mask, independent
of the wrapped value. -/
def SecretStr.display (_ : SecretStr) : String := "**********"

/-- `AstraDBConfig` from `config.py`. -/
structure AstraDBConfig where
  client_id : SecretStr
  client_secret : SecretStr
  cloud_config : String
  keyspace : String := "vectordb"
deriving DecidableEq, Repr

/-- `AstraDBConfig.to_dict`: the explicit accessor that reveals the
secret values. -/
def AstraDBConfig.to_dict (c : AstraDBConfig) : List (String × String) :=
  [("client_id", c.client_id.get_secret_value),
   ("client_secret", c.client_secret.get_secret_value),
   ("cloud_config", c.cloud_config),
   ("keyspace", c.keyspace)]

/-- Default stringification of the configuration object (pydantic
`BaseModel.__str__`): renders each field via its own stringification,
so `SecretStr` fields render as the mask. -/
def AstraDBConfig.str (c : AstraDBConfig) : String :=
  "client_id=" ++ c.client_id.display ++
  " client_secret=" ++ c.client_secret.display ++
  " cloud_config='" ++ c.cloud_config ++
  "' keyspace='" ++ c.keyspace ++ "'"

/-! ### Helper lemmas -/

/-- The head of a filtered list is the first element satisfying the
predicate. -/
lemma head?_filter_eq_find? {α : Type} (p : α → Bool) (l : List α) :
    (l.filter p).head? = l.find? p := by
  induction l with
  | nil => rfl
  | cons a t ih =>
      by_cases h : p a <;> simp [List.filter_cons, List.find?_cons, h, ih]

/-- `mapM` over a mapped list, for `Except`. -/
lemma mapM_map_except {γ α β ε : Type} (g : γ → α) (f : α → Except ε β)
    (l : List γ) : (l.map g).mapM f = l.mapM (fun x => f (g x)) := by
  induction l with
  | nil => rfl
  | cons a t ih => rw [List.map_cons, List.mapM_cons, List.mapM_cons, ih]

/-- When the metadata list is no longer than the embeddings list, the
parameter comprehension succeeds and pairs the two lists off. -/
lemma buildParams_eq_zip :
    ∀ (metadata : List Int) (embeddings : List (List Float)),
      metadata.length ≤ embeddings.length →
      buildParams metadata embeddings = .ok (metadata.zip embeddings)
  | [], _, _ => by rfl
  | _ :: _, [], h => by simp at h
  | m :: ms, e :: es, h => by
      have ih := buildParams_eq_zip ms es (by simpa using h)
      unfold buildParams at ih ⊢
      rw [List.length_cons, List.range_succ_eq_map, List.mapM_cons,
        mapM_map_except]
      simp only [List.getElem?_cons_succ, List.getElem?_cons_zero,
        Nat.succ_eq_add_one] at ih ⊢
      rw [ih]
      rfl

/-- When the metadata list is strictly longer, the comprehension hits
`embeddings[i]` out of range and raises `IndexError`. -/
lemma buildParams_indexError :
    ∀ (metadata : List Int) (embeddings : List (List Float)),
      embeddings.length < metadata.length →
      buildParams metadata embeddings = .error PyErr.indexError
  | [], _, h => by simp at h
  | m :: ms, [], _ => by
      unfold buildParams
      rw [List.length_cons, List.range_succ_eq_map, List.mapM_cons]
      simp only [List.getElem?_nil, List.getElem?_cons_zero]
      rfl
  | m :: ms, e :: es, h => by
      have ih := buildParams_indexError ms es (by simpa using h)
      unfold buildParams at ih ⊢
      rw [List.length_cons, List.range_succ_eq_map, List.mapM_cons,
        mapM_map_except]
      simp only [List.getElem?_cons_succ, List.getElem?_cons_zero,
        Nat.succ_eq_add_one] at ih ⊢
      rw [ih]
      rfl

/-- Success of a collected insert result mirrors the backend oracle. -/
lemma execResult_success (backend : InsertBackend) (p : Int × List Float) :
    (match backend p with
      | none => ExecResult.ok
      | some e => ExecResult.err e).success = (backend p).isNone := by
  cases backend p <;> rfl

/-- The per-row result constructor used by
`execute_concurrent_with_args`. -/
def rowResult (backend : InsertBackend) (p : Int × List Float) :
    ExecResult :=
  match backend p with
  | none => ExecResult.ok
  | some e => ExecResult.err e

/-- `insert_embeddings` on a batch whose metadata list is no longer
than its embeddings list: the parameter list is the zip. -/
lemma insert_embeddings_eq (backend : InsertBackend)
    (embeddings : List (List Float)) (metadata : List Int)
    (h : metadata.length ≤ embeddings.length) :
    insert_embeddings backend embeddings metadata =
      (let results := execute_concurrent_with_args backend
         (metadata.zip embeddings)
       let successful_results := results.filter (fun r => r.success)
       if successful_results.length = results.length then
         .ok (successful_results.length, none)
       else
         match (results.filter (fun r => !r.success)).head? with
         | some r => .ok (successful_results.length, r.result_or_exc)
         | none => .error PyErr.stopIteration) := by
  unfold insert_embeddings
  rw [buildParams_eq_zip metadata embeddings h]
  rfl

/-- The successful results are the image of the backend-accepted
parameters. -/
lemma filter_success_map (backend : InsertBackend)
    (zs : List (Int × List Float)) :
    (execute_concurrent_with_args backend zs).filter (fun r => r.success) =
      (zs.filter (fun p => (backend p).isNone)).map (rowResult backend) := by
  unfold execute_concurrent_with_args
  rw [show (zs.map fun p => match backend p with
        | none => ExecResult.ok
        | some e => ExecResult.err e) = zs.map (rowResult backend) from rfl]
  rw [List.filter_map]
  have hp : ((fun r : ExecResult => r.success) ∘ rowResult backend) =
      (fun p => (backend p).isNone) := by
    funext p
    simp only [Function.comp]
    exact execResult_success backend p
  rw [hp]

/-- The failed results are the image of the backend-rejected
parameters. -/
lemma filter_failed_map (backend : InsertBackend)
    (zs : List (Int × List Float)) :
    (execute_concurrent_with_args backend zs).filter (fun r => !r.success) =
      (zs.filter (fun p => (backend p).isSome)).map (rowResult backend) := by
  unfold execute_concurrent_with_args
  rw [show (zs.map fun p => match backend p with
        | none => ExecResult.ok
        | some e => ExecResult.err e) = zs.map (rowResult backend) from rfl]
  rw [List.filter_map]
  have hp : ((fun r : ExecResult => !r.success) ∘ rowResult backend) =
      (fun p => (backend p).isSome) := by
    funext p
    simp only [Function.comp]
    unfold rowResult
    cases backend p <;> rfl
  rw [hp]

/-! ### Claim theorems: insert path -/

/-- C2. For every insert batch in which every row succeeds,
`insert_embeddings` returns exactly (batch size, None). -/
theorem insert_embeddings_all_success (backend : InsertBackend)
    (metadata : List Int) (embeddings : List (List Float))
    (hlen : metadata.length = embeddings.length)
    (hok : ∀ p ∈ metadata.zip embeddings, backend p = none) :
    insert_embeddings backend embeddings metadata =
      .ok (metadata.length, none) := by
  rw [insert_embeddings_eq backend embeddings metadata (le_of_eq hlen)]
  have hall : (execute_concurrent_with_args backend
      (metadata.zip embeddings)).filter (fun r => r.success) =
      execute_concurrent_with_args backend (metadata.zip embeddings) := by
    refine List.filter_eq_self.mpr ?_
    intro r hr
    rcases List.mem_map.mp hr with ⟨p, hp, hrp⟩
    rw [← hrp]
    have := execResult_success backend p
    rw [hok p hp] at this ⊢
    exact this
  have hl2 : (execute_concurrent_with_args backend
      (metadata.zip embeddings)).length = metadata.length := by
    unfold execute_concurrent_with_args
    rw [List.length_map, List.length_zip, hlen, Nat.min_self, ← hlen]
  simp [hall, hl2]

/-- Witness for C2 at a concrete two-row batch. -/
theorem insert_embeddings_all_success_witness :
    insert_embeddings (fun _ => none)
      [[(0.5 : Float)], [(1.5 : Float)]] [1, 2] = .ok (2, none) :=
  insert_embeddings_all_success (fun _ => none) [1, 2]
    [[(0.5 : Float)], [(1.5 : Float)]] rfl (fun _ _ => rfl)

/-- C1. For every insert batch with at least one failing row,
`insert_embeddings` collects a result for every row of the batch (no
short-circuit), and returns (successCount, first error in iteration
order): successCount is the number of rows the backend accepted, it is
strictly below the batch size, and the returned error is the
`result_or_exc` of the first failed row, which is non-none. -/
theorem insert_embeddings_first_error (backend : InsertBackend)
    (metadata : List Int) (embeddings : List (List Float))
    (hlen : metadata.length = embeddings.length)
    (p0 : Int × List Float) (err : Err)
    (hfind : (metadata.zip embeddings).find?
        (fun p => (backend p).isSome) = some p0)
    (herr : backend p0 = some err) :
    insert_embeddings backend embeddings metadata =
      .ok (((metadata.zip embeddings).filter
              (fun p => (backend p).isNone)).length, some err) ∧
    ((metadata.zip embeddings).filter
        (fun p => (backend p).isNone)).length < metadata.length ∧
    (execute_concurrent_with_args backend
        (metadata.zip embeddings)).length = metadata.length := by
  have hzlen : (metadata.zip embeddings).length = metadata.length := by
    rw [List.length_zip, hlen, Nat.min_self, ← hlen]
  have hreslen : (execute_concurrent_with_args backend
      (metadata.zip embeddings)).length = metadata.length := by
    unfold execute_concurrent_with_args
    rw [List.length_map, hzlen]
  have hmem : p0 ∈ metadata.zip embeddings :=
    List.mem_of_find?_eq_some hfind
  have hlt : ((metadata.zip embeddings).filter
      (fun p => (backend p).isNone)).length <
      (metadata.zip embeddings).length := by
    refine List.length_filter_lt_length_iff_exists.mpr ⟨p0, hmem, ?_⟩
    rw [herr]
    simp
  refine ⟨?_, by rwa [hzlen] at hlt, hreslen⟩
  rw [insert_embeddings_eq backend embeddings metadata (le_of_eq hlen)]
  have hsucc := filter_success_map backend (metadata.zip embeddings)
  have hslen : ((execute_concurrent_with_args backend
      (metadata.zip embeddings)).filter (fun r => r.success)).length =
      ((metadata.zip embeddings).filter
        (fun p => (backend p).isNone)).length := by
    rw [hsucc, List.length_map]
  have hcond : ((execute_concurrent_with_args backend
      (metadata.zip embeddings)).filter (fun r => r.success)).length ≠
      (execute_concurrent_with_args backend
        (metadata.zip embeddings)).length := by
    rw [hslen, hreslen]
    rw [hzlen] at hlt
    exact Nat.ne_of_lt hlt
  simp only [if_neg hcond]
  have hhead : ((execute_concurrent_with_args backend
      (metadata.zip embeddings)).filter (fun r => !r.success)).head? =
      some (rowResult backend p0) := by
    rw [filter_failed_map backend (metadata.zip embeddings),
      List.head?_map, head?_filter_eq_find?, hfind]
    rfl
  rw [hhead, hslen]
  have hroe : (rowResult backend p0).result_or_exc = some err := by
    unfold rowResult
    rw [herr]
    rfl
  exact congrArg (fun o => Except.ok
    (((metadata.zip embeddings).filter
        (fun p => (backend p).isNone)).length, o)) hroe

/-- Witness for C1 at a concrete batch where the second row fails. -/
theorem insert_embeddings_first_error_witness :
    insert_embeddings
        (fun p => if p.1 = 3 then some ⟨"boom"⟩ else none)
        [[(0.5 : Float)], [(1.5 : Float)]] [1, 3] =
      .ok (1, some ⟨"boom"⟩) ∧
    (1 : Nat) < ([1, 3] : List Int).length ∧
    (execute_concurrent_with_args
        (fun p => if p.1 = 3 then some ⟨"boom"⟩ else none)
        (([1, 3] : List Int).zip
          [[(0.5 : Float)], [(1.5 : Float)]])).length = 2 := by
  have h := insert_embeddings_first_error
    (fun p => if p.1 = 3 then some ⟨"boom"⟩ else none)
    [1, 3] [[(0.5 : Float)], [(1.5 : Float)]] rfl
    (3, [(1.5 : Float)]) ⟨"boom"⟩ rfl rfl
  exact h

/-- C10. On the empty batch, `insert_embeddings` returns (0, None)
for every backend, and the concurrent executor is run on an empty
parameter list (no statement is executed). -/
theorem insert_embeddings_empty (backend : InsertBackend) :
    insert_embeddings backend [] [] = .ok (0, none) ∧
    execute_concurrent_with_args backend [] = [] :=
  ⟨rfl, rfl⟩

/-! ### Claim theorems: search path -/

/-- C3. Any failure during the ANN search is fatal: with
`raise_on_first_error=True` the first error aborts `search_embedding`
and is propagated to the caller; no partial or empty result is
returned in its place. -/
theorem search_embedding_error_propagates (backend : SearchBackend)
    (query : List Float) (k : Nat)
    (filters : Option (List (String × String))) (e : Err)
    (h : backend query k = .error e) :
    search_embedding backend query k filters = .error e := by
  unfold search_embedding execute_concurrent
  rw [h]
  rfl

/-- Witness for C3: a backend that fails makes the search fail with
that very error. -/
theorem search_embedding_error_propagates_witness :
    search_embedding (fun _ _ => .error ⟨"timeout"⟩) [(1.0 : Float)] 10
      none = .error ⟨"timeout"⟩ :=
  search_embedding_error_propagates (fun _ _ => .error ⟨"timeout"⟩)
    [(1.0 : Float)] 10 none ⟨"timeout"⟩ rfl

/-- C4. When the backend answers with its ranked rows (at most `k` of
them, per the statement's LIMIT), `search_embedding` returns exactly
the row identifiers in the backend's order — no re-sorting, no
deduplication — and hence at most `k` identifiers. -/
theorem search_embedding_order (backend : SearchBackend)
    (query : List Float) (k : Nat) (name : String)
    (filters : Option (List (String × String))) (rows : List Row)
    (hok : backend query k = .ok rows) (hlim : rows.length ≤ k) :
    search_embedding backend query k filters =
      .ok (rows.map (fun row => row.id)) ∧
    (rows.map (fun row => row.id)).length ≤ k ∧
    (pyFormat SELECT_PREPARED [name]).data =
      "\nSELECT id FROM ".data ++
        (name.data ++ " ORDER BY embedding ANN OF ? LIMIT ?;\n".data) := by
  refine ⟨?_, ?_, rfl⟩
  · unfold search_embedding execute_concurrent
    rw [hok]
    simp
  · rw [List.length_map]
    exact hlim

/-- Witness for C4 at a concrete ranked answer. -/
theorem search_embedding_order_witness :
    search_embedding (fun _ _ => .ok [⟨3⟩, ⟨1⟩, ⟨2⟩]) [(1.0 : Float)] 5
      none = .ok [3, 1, 2] ∧
    ([⟨3⟩, ⟨1⟩, ⟨2⟩].map (fun row : Row => row.id)).length ≤ 5 ∧
    (pyFormat SELECT_PREPARED ["astradb_collection"]).data =
      "\nSELECT id FROM ".data ++
        ("astradb_collection".data ++
          " ORDER BY embedding ANN OF ? LIMIT ?;\n".data) :=
  search_embedding_order (fun _ _ => .ok [⟨3⟩, ⟨1⟩, ⟨2⟩])
    [(1.0 : Float)] 5 "astradb_collection" none [⟨3⟩, ⟨1⟩, ⟨2⟩] rfl
    (by decide)

/-- C5. The `filters` argument is accepted but has no observable
effect: any two filter arguments give identical results. -/
theorem search_embedding_filters_ignored (backend : SearchBackend)
    (query : List Float) (k : Nat)
    (f1 f2 : Option (List (String × String))) :
    search_embedding backend query k f1 =
      search_embedding backend query k f2 := rfl

/-! ### Claim theorems: session scope -/

/-- C6. Once the session is acquired, the `init` scope prepares the
keyspace binding and both statements before the `yield`, and every
exit path — normal completion, a body failure, or a failure during
keyspace binding or statement preparation — ends with `shutdown`. -/
theorem initTrace_release_and_prepare
    (connectOk ksOk pIOk pSOk bodyOk : Bool)
    (h : connectOk = true) :
    (initTrace connectOk ksOk pIOk pSOk bodyOk).1.getLast? =
      some Ev.shutdown ∧
    (Ev.yieldBody ∈ (initTrace connectOk ksOk pIOk pSOk bodyOk).1 ↔
      ksOk = true ∧ pIOk = true ∧ pSOk = true) ∧
    (ksOk = true → pIOk = true → pSOk = true →
      (initTrace connectOk ksOk pIOk pSOk bodyOk).1 =
        [Ev.connect, Ev.setKeyspace, Ev.prepareInsertStmt,
         Ev.prepareSelectStmt, Ev.yieldBody, Ev.shutdown]) := by
  subst h
  cases ksOk <;> cases pIOk <;> cases pSOk <;> cases bodyOk <;> decide

/-- Witness for C6 on the all-success path. -/
theorem initTrace_release_and_prepare_witness :
    (initTrace true true true true true).1.getLast? = some Ev.shutdown ∧
    (Ev.yieldBody ∈ (initTrace true true true true true).1 ↔
      true = true ∧ true = true ∧ true = true) ∧
    (true = true → true = true → true = true →
      (initTrace true true true true true).1 =
        [Ev.connect, Ev.setKeyspace, Ev.prepareInsertStmt,
         Ev.prepareSelectStmt, Ev.yieldBody, Ev.shutdown]) :=
  initTrace_release_and_prepare true true true true true rfl

/-! ### Claim theorems: schema provisioning -/

/-- C7. The constructor issues the two drop statements exactly when
`drop_old` is set and before any create statement; the create-table
and create-index statements carry IF NOT EXISTS (and the drops IF
EXISTS) semantics; the administrative connection is opened first,
explicitly shut down last within the constructor, and the constructed
adapter state holds no session (the data session is only assigned by
the scoped `init`). -/
theorem astraCtor_provisioning (dim : Nat) (ks name cc : String)
    (drop_old : Bool) :
    (drop_old = true →
      (astraCtor dim ks name cc drop_old).2 =
        [AdminEv.adminConnect, AdminEv.adminSetKeyspace ks,
         AdminEv.exec (pyFormat DROP_TABLE_TEMPLATE [name]),
         AdminEv.exec (pyFormat DROP_INDEX_TEMPLATE [name]),
         AdminEv.exec (pyFormat CREATE_TABLE_TEMPLATE
           [name, toString dim]),
         AdminEv.exec (pyFormat CREATE_INDEX_TEMPLATE [name, name]),
         AdminEv.adminShutdown]) ∧
    (drop_old = false →
      (astraCtor dim ks name cc drop_old).2 =
        [AdminEv.adminConnect, AdminEv.adminSetKeyspace ks,
         AdminEv.exec (pyFormat CREATE_TABLE_TEMPLATE
           [name, toString dim]),
         AdminEv.exec (pyFormat CREATE_INDEX_TEMPLATE [name, name]),
         AdminEv.adminShutdown]) ∧
    HasPhrase "IF NOT EXISTS"
      (pyFormat CREATE_TABLE_TEMPLATE [name, toString dim]) ∧
    HasPhrase "IF NOT EXISTS"
      (pyFormat CREATE_INDEX_TEMPLATE [name, name]) ∧
    HasPhrase "IF EXISTS" (pyFormat DROP_TABLE_TEMPLATE [name]) ∧
    HasPhrase "IF EXISTS" (pyFormat DROP_INDEX_TEMPLATE [name]) ∧
    (astraCtor dim ks name cc drop_old).2.getLast? =
      some AdminEv.adminShutdown ∧
    (astraCtor dim ks name cc drop_old).2.head? =
      some AdminEv.adminConnect ∧
    (astraCtor dim ks name cc drop_old).1.session = none := by
  refine ⟨?_, ?_, ?_, ?_, ?_, ?_, ?_, ?_, ?_⟩
  · intro h; subst h; rfl
  · intro h; subst h; rfl
  · exact ⟨"\nCREATE TABLE ".data,
      " ".data ++ (name.data ++
        (" (\n    id INT,\n    embedding VECTOR<FLOAT, ".data ++
          ((toString dim).data ++
            ">,\n    PRIMARY KEY (id)\n);\n".data))), rfl⟩
  · exact ⟨"\nCREATE CUSTOM INDEX ".data,
      " ".data ++ (name.data ++
        ("_index\nON ".data ++ (name.data ++
          "(embedding) USING 'StorageAttachedIndex';\n".data))), rfl⟩
  · exact ⟨"\nDROP TABLE ".data,
      " ".data ++ (name.data ++ ";\n".data), rfl⟩
  · exact ⟨"\nDROP INDEX ".data,
      " ".data ++ (name.data ++ "_index;\n".data), rfl⟩
  · cases drop_old <;> rfl
  · cases drop_old <;> rfl
  · rfl

/-- Witness for C7 with the clean-slate flag set. -/
theorem astraCtor_provisioning_witness :
    (astraCtor 128 "vectordb" "astradb_collection" "bundle" true).2 =
      [AdminEv.adminConnect, AdminEv.adminSetKeyspace "vectordb",
       AdminEv.exec (pyFormat DROP_TABLE_TEMPLATE ["astradb_collection"]),
       AdminEv.exec (pyFormat DROP_INDEX_TEMPLATE ["astradb_collection"]),
       AdminEv.exec (pyFormat CREATE_TABLE_TEMPLATE
         ["astradb_collection", toString 128]),
       AdminEv.exec (pyFormat CREATE_INDEX_TEMPLATE
         ["astradb_collection", "astradb_collection"]),
       AdminEv.adminShutdown] ∧
    (astraCtor 128 "vectordb" "astradb_collection" "bundle" true).1.session
      = none :=
  ⟨(astraCtor_provisioning 128 "vectordb" "astradb_collection" "bundle"
      true).1 rfl,
   (astraCtor_provisioning 128 "vectordb" "astradb_collection" "bundle"
      true).2.2.2.2.2.2.2.2⟩

/-! ### Claim theorems: batch-length precondition (C8) -/

/-- C8 counterexample: the claim says every unequal-length call
raises, but with an empty metadata list and a non-empty embeddings
list the lengths differ and the call completes normally with
(0, None) — the comprehension only iterates over `len(metadata)`. -/
theorem insert_embeddings_mismatch_counterexample :
    ([] : List Int).length ≠ [[(1.5 : Float)]].length ∧
    insert_embeddings (fun _ => none) [[(1.5 : Float)]] [] =
      .ok (0, none) :=
  ⟨by simp, rfl⟩

/-- C8 amended. A length mismatch raises `IndexError` exactly when
the metadata list is longer than the embeddings list; when it is
shorter, the call completes normally (the extra embeddings are
silently ignored). -/
theorem insert_embeddings_mismatch_amended (backend : InsertBackend)
    (metadata : List Int) (embeddings : List (List Float)) :
    (embeddings.length < metadata.length →
      insert_embeddings backend embeddings metadata =
        .error PyErr.indexError) ∧
    (metadata.length ≤ embeddings.length →
      ∃ r, insert_embeddings backend embeddings metadata =
        Except.ok r) := by
  constructor
  · intro h
    unfold insert_embeddings
    rw [buildParams_indexError metadata embeddings h]
    rfl
  · intro h
    rw [insert_embeddings_eq backend embeddings metadata h]
    by_cases hc : ((execute_concurrent_with_args backend
        (metadata.zip embeddings)).filter (fun r => r.success)).length =
        (execute_concurrent_with_args backend
          (metadata.zip embeddings)).length
    · exact ⟨_, by rw [if_pos hc]⟩
    · have hlt := lt_of_le_of_ne (List.length_filter_le _ _) hc
      obtain ⟨x, hx, hpx⟩ :=
        List.length_filter_lt_length_iff_exists.mp hlt
      have hmem : x ∈ (execute_concurrent_with_args backend
          (metadata.zip embeddings)).filter (fun r => !r.success) :=
        List.mem_filter.mpr ⟨hx, by simpa using hpx⟩
      cases hh : ((execute_concurrent_with_args backend
          (metadata.zip embeddings)).filter
            (fun r => !r.success)).head? with
      | none =>
          rw [List.head?_eq_none_iff] at hh
          rw [hh] at hmem
          exact absurd hmem (List.not_mem_nil x)
      | some r =>
          refine ⟨(((execute_concurrent_with_args backend
            (metadata.zip embeddings)).filter
              (fun r => r.success)).length, r.result_or_exc), ?_⟩
          rw [if_neg hc, hh]

/-- Witness for C8 (amended) in both directions. -/
theorem insert_embeddings_mismatch_amended_witness :
    insert_embeddings (fun _ => none) [] [5] =
      .error PyErr.indexError ∧
    ∃ r, insert_embeddings (fun _ => none) [[(1.5 : Float)]] [7] =
      Except.ok r :=
  ⟨(insert_embeddings_mismatch_amended (fun _ => none) [5] []).1
      (by decide),
   (insert_embeddings_mismatch_amended (fun _ => none) [7]
      [[(1.5 : Float)]]).2 (by decide)⟩

/-! ### Claim theorems: configuration secrecy (C9) -/

/-- C9. `to_dict` is the explicit accessor that reveals the secret
values along with `cloud_config` and `keyspace`, while default
stringification of the configuration is independent of the secret
values (they render only as a fixed mask). -/
theorem astraDBConfig_secrecy (c c' : AstraDBConfig)
    (hcc : c.cloud_config = c'.cloud_config)
    (hks : c.keyspace = c'.keyspace) :
    c.to_dict =
      [("client_id", c.client_id.secret),
       ("client_secret", c.client_secret.secret),
       ("cloud_config", c.cloud_config),
       ("keyspace", c.keyspace)] ∧
    c.str = c'.str := by
  constructor
  · rfl
  · unfold AstraDBConfig.str SecretStr.display
    rw [hcc, hks]

/-- Witness for C9: two configurations differing only in their secret
fields stringify identically, while `to_dict` reveals the secrets. -/
theorem astraDBConfig_secrecy_witness :
    (AstraDBConfig.mk ⟨"id1"⟩ ⟨"sk1"⟩ "bundle" "vectordb").to_dict =
      [("client_id", "id1"), ("client_secret", "sk1"),
       ("cloud_config", "bundle"), ("keyspace", "vectordb")] ∧
    (AstraDBConfig.mk ⟨"id1"⟩ ⟨"sk1"⟩ "bundle" "vectordb").str =
      (AstraDBConfig.mk ⟨"id2"⟩ ⟨"sk2"⟩ "bundle" "vectordb").str :=
  astraDBConfig_secrecy
    (AstraDBConfig.mk ⟨"id1"⟩ ⟨"sk1"⟩ "bundle" "vectordb")
    (AstraDBConfig.mk ⟨"id2"⟩ ⟨"sk2"⟩ "bundle" "vectordb") rfl rfl

end AstraDBSpec
